import Mathlib

/-!
Shallow embedding of the eye-phone-assessment-app request handling code:

* `src/app/api/assess-eyes-batch/route.ts` — the batch endpoint `POST`
  handler: CORS header construction (`getCorsHeaders`), the Content-Length
  413 guard, the images-array shape and count checks, the API-key check,
  the Gemini-error 413 classifier (`is413Error`), the outer catch-block
  error classifier, the zod `AssessmentSchema` validator and the success
  response.
* `src/app/api/assess-eyes/route.ts` — the single-image endpoint `POST`
  handler prechecks (image presence, `OPENAI_API_KEY`).
* `src/lib/assessment-service.tsx` — `performMockAssessment`,
  `validateImages` and the `MOCK_RESULTS` list.

JavaScript numbers are modelled by `Nat` / `ℚ` (decimal literals such as
`0.92` become the exact rationals `mkRat 92 100`), JS strings by `String`,
absent values (`undefined` / missing JSON fields) by `Option`.  Rational
arithmetic is written with executable `Rat.divInt`-based operations
(`qAdd`, `qMul`, ...) so that concrete runs reduce inside the kernel; each
operation is provably the ordinary field operation on `ℚ`.  The external
Gemini call is a parameter of the handler model (an oracle): the handler
never inspects it before the call site, so every property about behaviour
"without calling the model" is stated as independence from that parameter.
-/

/-! ### String helpers (JS `includes` / `startsWith` on exact code points) -/

/-- JS `String.prototype.includes` on lists of characters: `pat` occurs as a
contiguous substring. -/
def listIncludes (pat : List Char) : List Char → Bool
  | [] => pat.isEmpty
  | c :: rest => pat.isPrefixOf (c :: rest) || listIncludes pat rest

/-- JS `hay.includes(pat)` for strings. -/
def strIncludes (hay pat : String) : Bool :=
  listIncludes pat.toList hay.toList

/-- JS `s.startsWith(pat)` for strings. -/
def strStartsWith (s pat : String) : Bool :=
  pat.toList.isPrefixOf s.toList

/-! ### Executable rational arithmetic

`Rat.add`/`Rat.mul`/... are `@[irreducible]` in the ambient library, so the
embedding uses its own `Rat.divInt`-based operations, which the kernel can
evaluate on concrete inputs.  They agree with the field operations of `ℚ`
(lemmas below), so general reasoning can still use ordinary algebra. -/

/-- Exact rational addition, executable. -/
def qAdd (a b : ℚ) : ℚ := Rat.divInt (a.num * (b.den : Int) + b.num * (a.den : Int)) ((a.den : Int) * (b.den : Int))

/-- Exact rational multiplication, executable. -/
def qMul (a b : ℚ) : ℚ := Rat.divInt (a.num * b.num) ((a.den : Int) * (b.den : Int))

/-- Exact rational subtraction, executable. -/
def qSub (a b : ℚ) : ℚ := qAdd a (-b)

/-- Floor of a rational as an integer (denominators are positive, so integer
flooring division computes it). -/
def qFloor (q : ℚ) : Int := Int.fdiv q.num (q.den : Int)

/-- JS `Math.round`: round half toward positive infinity,
`Math.round x = ⌊x + 1/2⌋`. -/
def jsRound (q : ℚ) : Int := Int.fdiv (2 * q.num + (q.den : Int)) (2 * (q.den : Int))

/-- `Math.round(c * 100) / 100` — the two-decimal rounding the handlers apply
to confidence values. -/
def round2 (c : ℚ) : ℚ := Rat.divInt (jsRound (qMul c 100)) 100

theorem qAdd_eq (a b : ℚ) : qAdd a b = a + b := by
  rw [qAdd, ← Rat.divInt_add_divInt a.num b.num (Int.natCast_ne_zero.2 a.den_nz)
        (Int.natCast_ne_zero.2 b.den_nz), Rat.num_divInt_den, Rat.num_divInt_den]

theorem qMul_eq (a b : ℚ) : qMul a b = a * b := by
  rw [qMul, ← Rat.divInt_mul_divInt' a.num (a.den : Int) b.num (b.den : Int),
    Rat.num_divInt_den, Rat.num_divInt_den]

theorem qSub_eq (a b : ℚ) : qSub a b = a - b := by
  rw [qSub, qAdd_eq, sub_eq_add_neg]

example : jsRound (mkRat 5 2) = 3 := by decide

example : jsRound (mkRat 23 10) = 2 := by decide

example : round2 (mkRat 923 1000) = mkRat 92 100 := by decide

example : qFloor (mkRat 35 6) = 5 := by decide

/-! ### `validateImages` (src/lib/assessment-service.tsx) -/

/-- An uploaded image file as the repository code observes it: its MIME
`type` and its `size` in bytes (the browser `File` API). -/
structure ImageFile where
  type : String
  size : Nat
deriving DecidableEq

/-- Result of `validateImages`. -/
structure ImageValidation where
  isValid : Bool
  issues : List String
deriving DecidableEq

/-- Issues `validateImages` pushes for the image at (0-based) index `idx`,
in source order: file type, max size, min size. -/
def imageIssues (idx : Nat) (img : ImageFile) : List String :=
  (if !(strStartsWith img.type "image/") then
      ["File " ++ toString (idx + 1) ++ " is not a valid image"] else []) ++
  (if img.size > 10 * 1024 * 1024 then
      ["Image " ++ toString (idx + 1) ++ " is too large (max 10MB)"] else []) ++
  (if img.size < 1024 then
      ["Image " ++ toString (idx + 1) ++ " appears to be too small or corrupted"] else [])

/-- `validateImages`: collects the count issues, then the per-image issues in
source order; `isValid` is whether the issue list came out empty. -/
def validateImages (images : List ImageFile) : ImageValidation :=
  let issues :=
    (if images.length = 0 then ["At least one image is required"] else []) ++
    (if images.length > 10 then ["Maximum 10 images allowed"] else []) ++
    (images.enum.flatMap fun p => imageIssues p.1 p.2)
  ⟨issues.isEmpty, issues⟩

example : (validateImages [⟨"image/jpeg", 5000⟩]).isValid = true := by decide

example : (validateImages []).isValid = false := by decide

example : (validateImages [⟨"text/plain", 500⟩]).issues.length = 2 := by decide

/-- The three per-image checks of `validateImages`: how many of them the
image violates (type, max size, min size). -/
def violationCount (img : ImageFile) : Nat :=
  (if !(strStartsWith img.type "image/") then 1 else 0) +
  (if img.size > 10 * 1024 * 1024 then 1 else 0) +
  (if img.size < 1024 then 1 else 0)

lemma imageIssues_length (idx : Nat) (img : ImageFile) :
    (imageIssues idx img).length = violationCount img := by
  simp only [imageIssues, violationCount, List.length_append]
  split_ifs <;> simp

lemma imageIssues_eq_nil_iff (idx : Nat) (img : ImageFile) :
    imageIssues idx img = [] ↔
      (strStartsWith img.type "image/" = true ∧ 1024 ≤ img.size ∧ img.size ≤ 10485760) := by
  simp only [imageIssues, List.append_eq_nil]
  split_ifs with h1 h2 h3 <;> simp_all

lemma ite_eq_nil_iff_not {c : Prop} [Decidable c] (x : String) (xs : List String) :
    ((if c then x :: xs else []) = []) ↔ ¬c := by
  split_ifs with h <;> simp_all

lemma enumFrom_flatMap_issues_eq_nil (n : Nat) (l : List ImageFile) :
    ((List.enumFrom n l).flatMap fun p => imageIssues p.1 p.2) = [] ↔
      ∀ img ∈ l, strStartsWith img.type "image/" = true ∧
        1024 ≤ img.size ∧ img.size ≤ 10485760 := by
  induction l generalizing n with
  | nil => simp
  | cons a t ih =>
    simp [List.enumFrom, List.flatMap_cons, List.append_eq_nil,
      imageIssues_eq_nil_iff, ih]

lemma enumFrom_flatMap_issues_length (n : Nat) (l : List ImageFile) :
    ((List.enumFrom n l).flatMap fun p => imageIssues p.1 p.2).length =
      (l.map violationCount).sum := by
  induction l generalizing n with
  | nil => simp
  | cons a t ih =>
    simp [List.enumFrom, List.flatMap_cons, imageIssues_length, ih]

/-- C9: `validateImages(images)` returns `isValid = true` exactly when its
issues list is empty, which holds precisely when `1 ≤ images.length ≤ 10`,
every image's MIME type starts with `"image/"`, and every image's size is
between 1024 and 10485760 bytes inclusive; and the issues list has one
entry per violated condition. -/
theorem validateImages_correct (images : List ImageFile) :
    ((validateImages images).isValid = (validateImages images).issues.isEmpty) ∧
    ((validateImages images).isValid = true ↔
      (1 ≤ images.length ∧ images.length ≤ 10 ∧
        ∀ img ∈ images, strStartsWith img.type "image/" = true ∧
          1024 ≤ img.size ∧ img.size ≤ 10485760)) ∧
    ((validateImages images).issues.length =
      (if images.length = 0 then 1 else 0) +
      (if images.length > 10 then 1 else 0) +
      (images.map violationCount).sum) := by
  refine ⟨rfl, ?_, ?_⟩
  · simp only [validateImages, List.isEmpty_iff, List.append_eq_nil, List.enum,
      enumFrom_flatMap_issues_eq_nil, ite_eq_nil_iff_not]
    constructor
    · rintro ⟨⟨h1, h2⟩, h3⟩
      exact ⟨by omega, by omega, h3⟩
    · rintro ⟨h1, h2, h3⟩
      exact ⟨⟨by omega, by omega⟩, h3⟩
  · simp only [validateImages, List.length_append, List.enum,
      enumFrom_flatMap_issues_length]
    split_ifs <;> simp

/-! ### The zod `AssessmentSchema` of src/app/api/assess-eyes-batch/route.ts

A model response is a JSON object; the raw view (`Raw…` structures) has
every field `Option`-wrapped (missing / wrong-typed fields are `none`), and
`parseAssessment` is `AssessmentSchema.parse`: it succeeds exactly when zod
would, applying the `.default([])` fallbacks of the three array fields and
keeping the `.optional()` `progressionAnalysis` as an `Option`. -/

/-- zod range check, `zod.number().min(lo).max(hi)` applied to value `v`. -/
def ensure (c : Prop) [Decidable c] : Option Unit :=
  if c then some () else none

structure ProgressionAnalysis where
  overallTrend : String
  imageComparison : String
  temporalChanges : List String
deriving DecidableEq

structure DetailedAnalysis where
  eyeAlignment : String
  pupilResponse : String
  cornealClarity : String
  squintingStrain : String
  overallEyeHealth : String
deriving DecidableEq

structure ImageQuality where
  resolution : String
  sharpnessScore : ℚ
  contrastRatio : ℚ
  brightnessLevel : ℚ
deriving DecidableEq

structure EyeGeometry where
  pupilDiameterLeft : ℚ
  pupilDiameterRight : ℚ
  pupilAsymmetryRatio : ℚ
  eyeAlignmentAngle : ℚ
  interPupillaryDistance : ℚ
deriving DecidableEq

structure RiskIndicators where
  squintingProbability : ℚ
  alignmentDeviation : ℚ
  cornealReflexSymmetry : ℚ
  focusAccuracy : ℚ
deriving DecidableEq

/-- A `{ lower, upper }` confidence interval. -/
structure RangeBounds where
  lower : ℚ
  upper : ℚ
deriving DecidableEq

structure ConfidenceIntervals where
  overallAssessment : RangeBounds
  myopiaRisk : RangeBounds
deriving DecidableEq

structure TechnicalMetrics where
  imageQuality : ImageQuality
  eyeGeometry : EyeGeometry
  riskIndicators : RiskIndicators
  confidenceIntervals : ConfidenceIntervals
deriving DecidableEq

/-- A validated model response (output of `AssessmentSchema.parse`). -/
structure Assessment where
  riskLevel : String
  explanation : String
  confidence : ℚ
  detectedFeatures : List String
  recommendations : List String
  visualAidSuggestions : List String
  detailedAnalysis : DetailedAnalysis
  technicalMetrics : TechnicalMetrics
  progressionAnalysis : Option ProgressionAnalysis
deriving DecidableEq

structure RawProgression where
  overallTrend : Option String
  imageComparison : Option String
  temporalChanges : Option (List String)
deriving DecidableEq

structure RawDetailed where
  eyeAlignment : Option String
  pupilResponse : Option String
  cornealClarity : Option String
  squintingStrain : Option String
  overallEyeHealth : Option String
deriving DecidableEq

structure RawImageQuality where
  resolution : Option String
  sharpnessScore : Option ℚ
  contrastRatio : Option ℚ
  brightnessLevel : Option ℚ
deriving DecidableEq

structure RawEyeGeometry where
  pupilDiameterLeft : Option ℚ
  pupilDiameterRight : Option ℚ
  pupilAsymmetryRatio : Option ℚ
  eyeAlignmentAngle : Option ℚ
  interPupillaryDistance : Option ℚ
deriving DecidableEq

structure RawRiskIndicators where
  squintingProbability : Option ℚ
  alignmentDeviation : Option ℚ
  cornealReflexSymmetry : Option ℚ
  focusAccuracy : Option ℚ
deriving DecidableEq

structure RawRangeBounds where
  lower : Option ℚ
  upper : Option ℚ
deriving DecidableEq

structure RawConfidenceIntervals where
  overallAssessment : Option RawRangeBounds
  myopiaRisk : Option RawRangeBounds
deriving DecidableEq

structure RawTechnicalMetrics where
  imageQuality : Option RawImageQuality
  eyeGeometry : Option RawEyeGeometry
  riskIndicators : Option RawRiskIndicators
  confidenceIntervals : Option RawConfidenceIntervals
deriving DecidableEq

/-- The raw JSON view of a model response, before schema validation. -/
structure RawAssessment where
  riskLevel : Option String
  explanation : Option String
  confidence : Option ℚ
  detectedFeatures : Option (List String)
  recommendations : Option (List String)
  visualAidSuggestions : Option (List String)
  detailedAnalysis : Option RawDetailed
  technicalMetrics : Option RawTechnicalMetrics
  progressionAnalysis : Option RawProgression
deriving DecidableEq

def parseProgression (r : RawProgression) : Option ProgressionAnalysis := do
  let trend ← r.overallTrend
  let cmp ← r.imageComparison
  let changes ← r.temporalChanges
  pure ⟨trend, cmp, changes⟩

def parseDetailed (r : RawDetailed) : Option DetailedAnalysis := do
  let ea ← r.eyeAlignment
  let pr ← r.pupilResponse
  let cc ← r.cornealClarity
  let ss ← r.squintingStrain
  let oh ← r.overallEyeHealth
  pure ⟨ea, pr, cc, ss, oh⟩

def parseImageQuality (r : RawImageQuality) : Option ImageQuality := do
  let res ← r.resolution
  let sh ← r.sharpnessScore
  let _ ← ensure (0 ≤ sh ∧ sh ≤ 100)
  let cr ← r.contrastRatio
  let _ ← ensure (0 ≤ cr ∧ cr ≤ 10)
  let bl ← r.brightnessLevel
  let _ ← ensure (0 ≤ bl ∧ bl ≤ 255)
  pure ⟨res, sh, cr, bl⟩

def parseEyeGeometry (r : RawEyeGeometry) : Option EyeGeometry := do
  let pl ← r.pupilDiameterLeft
  let _ ← ensure (0 ≤ pl ∧ pl ≤ 20)
  let pr ← r.pupilDiameterRight
  let _ ← ensure (0 ≤ pr ∧ pr ≤ 20)
  let pa ← r.pupilAsymmetryRatio
  let _ ← ensure (0 ≤ pa ∧ pa ≤ 2)
  let ang ← r.eyeAlignmentAngle
  let _ ← ensure (-45 ≤ ang ∧ ang ≤ 45)
  let ipd ← r.interPupillaryDistance
  let _ ← ensure (0 ≤ ipd ∧ ipd ≤ 80)
  pure ⟨pl, pr, pa, ang, ipd⟩

def parseRiskIndicators (r : RawRiskIndicators) : Option RiskIndicators := do
  let sq ← r.squintingProbability
  let _ ← ensure (0 ≤ sq ∧ sq ≤ 100)
  let ad ← r.alignmentDeviation
  let _ ← ensure (0 ≤ ad ∧ ad ≤ 100)
  let cs ← r.cornealReflexSymmetry
  let _ ← ensure (0 ≤ cs ∧ cs ≤ 100)
  let fa ← r.focusAccuracy
  let _ ← ensure (0 ≤ fa ∧ fa ≤ 100)
  pure ⟨sq, ad, cs, fa⟩

def parseRangeBounds (r : RawRangeBounds) : Option RangeBounds := do
  let lo ← r.lower
  let _ ← ensure (0 ≤ lo ∧ lo ≤ 100)
  let hi ← r.upper
  let _ ← ensure (0 ≤ hi ∧ hi ≤ 100)
  pure ⟨lo, hi⟩

def parseTechnicalMetrics (r : RawTechnicalMetrics) : Option TechnicalMetrics := do
  let iq ← r.imageQuality
  let iq ← parseImageQuality iq
  let eg ← r.eyeGeometry
  let eg ← parseEyeGeometry eg
  let ri ← r.riskIndicators
  let ri ← parseRiskIndicators ri
  let ci ← r.confidenceIntervals
  let oa ← ci.overallAssessment
  let oa ← parseRangeBounds oa
  let mr ← ci.myopiaRisk
  let mr ← parseRangeBounds mr
  pure ⟨iq, eg, ri, ⟨oa, mr⟩⟩

/-- `AssessmentSchema.parse` of the batch route, as an `Option`-valued
function on the raw JSON view: `some` exactly when zod validation passes. -/
def parseAssessment (r : RawAssessment) : Option Assessment := do
  let rl ← r.riskLevel
  let _ ← ensure (rl = "Low Risk" ∨ rl = "Medium Risk" ∨ rl = "High Risk")
  let ex ← r.explanation
  let _ ← ensure (50 ≤ ex.length)
  let c ← r.confidence
  let _ ← ensure (0 ≤ c ∧ c ≤ 1)
  let df := r.detectedFeatures.getD []
  let recs := r.recommendations.getD []
  let vas := r.visualAidSuggestions.getD []
  let da ← r.detailedAnalysis
  let da ← parseDetailed da
  let tm ← r.technicalMetrics
  let tm ← parseTechnicalMetrics tm
  let pa ← match r.progressionAnalysis with
    | none => pure none
    | some rp => some <$> parseProgression rp
  pure ⟨rl, ex, c, df, recs, vas, da, tm, pa⟩

/-- A concrete fully-populated model response that passes validation. -/
def sampleRaw : RawAssessment :=
  ⟨some "Low Risk",
   some "Eye alignment appears normal with no significant concerns detected overall.",
   some 1,
   some ["Normal eye alignment"], some ["Routine checkups"], some ["Good lighting"],
   some ⟨some "normal", some "normal", some "clear", some "none", some "healthy"⟩,
   some ⟨some ⟨some "1280x720", some 80, some 5, some 120⟩,
         some ⟨some 4, some 4, some 1, some 0, some 55⟩,
         some ⟨some 10, some 5, some 90, some 85⟩,
         some ⟨some ⟨some 70, some 90⟩, some ⟨some 10, some 30⟩⟩⟩,
   some ⟨some "stable", some "consistent", some ["none observed"]⟩⟩

/-- The same response with the optional `progressionAnalysis` block absent. -/
def sampleRawNoProgression : RawAssessment :=
  ⟨some "Low Risk",
   some "Eye alignment appears normal with no significant concerns detected overall.",
   some 1,
   some ["Normal eye alignment"], some ["Routine checkups"], some ["Good lighting"],
   some ⟨some "normal", some "normal", some "clear", some "none", some "healthy"⟩,
   some ⟨some ⟨some "1280x720", some 80, some 5, some 120⟩,
         some ⟨some 4, some 4, some 1, some 0, some 55⟩,
         some ⟨some 10, some 5, some 90, some 85⟩,
         some ⟨some ⟨some 70, some 90⟩, some ⟨some 10, some 30⟩⟩⟩,
   none⟩

example : (parseAssessment sampleRaw).isSome = true := by decide

example : (parseAssessment sampleRawNoProgression).isSome = true := by decide

example : (parseAssessment ⟨none, none, none, none, none, none, none, none, none⟩).isSome = false := by
  decide

/-- C3: the response validator accepts a model response only if every
required field is present and well-ranged: whenever
`AssessmentSchema.parse` succeeds, `riskLevel` is present and one of the
three enumerated strings, `explanation` is present with at least 50
characters, `confidence` is present and in `[0, 1]`, and the required
nested objects (`detailedAnalysis` with its five fields,
`technicalMetrics` with its four sub-objects) are all present; so any
response missing one of these, or out of range, is rejected. -/
theorem assessmentSchema_requires_fields (r : RawAssessment)
    (h : (parseAssessment r).isSome = true) :
    (∃ rl, r.riskLevel = some rl ∧
      (rl = "Low Risk" ∨ rl = "Medium Risk" ∨ rl = "High Risk")) ∧
    (∃ ex, r.explanation = some ex ∧ 50 ≤ ex.length) ∧
    (∃ c, r.confidence = some c ∧ 0 ≤ c ∧ c ≤ 1) ∧
    (∃ da, r.detailedAnalysis = some da ∧
      da.eyeAlignment.isSome = true ∧ da.pupilResponse.isSome = true ∧
      da.cornealClarity.isSome = true ∧ da.squintingStrain.isSome = true ∧
      da.overallEyeHealth.isSome = true) ∧
    (∃ tm, r.technicalMetrics = some tm ∧
      tm.imageQuality.isSome = true ∧ tm.eyeGeometry.isSome = true ∧
      tm.riskIndicators.isSome = true ∧ tm.confidenceIntervals.isSome = true) := by
  rw [Option.isSome_iff_exists] at h
  obtain ⟨v, hv⟩ := h
  simp only [parseAssessment, ensure, Option.bind_eq_bind, Option.bind_eq_some,
    Option.ite_none_right_eq_some, and_true, exists_const] at hv
  obtain ⟨rl, hrl, hrlmem, ex, hex, hexlen, c, hc, hcrange, da, hda, pda, hpda,
    tm, htm, ptm, hptm, -⟩ := hv
  simp only [parseDetailed, Option.bind_eq_bind, Option.bind_eq_some] at hpda
  obtain ⟨ea, hea, pr, hpr, cc, hcc, ss, hss, oh, hoh, -⟩ := hpda
  simp only [parseTechnicalMetrics, Option.bind_eq_bind, Option.bind_eq_some] at hptm
  obtain ⟨iq, hiq, -, -, eg, heg, -, -, ri, hri, -, -, ci, hci, -⟩ := hptm
  exact ⟨⟨rl, hrl, hrlmem⟩, ⟨ex, hex, hexlen⟩, ⟨c, hc, hcrange⟩,
    ⟨da, hda, by simp [hea], by simp [hpr], by simp [hcc], by simp [hss], by simp [hoh]⟩,
    ⟨tm, htm, by simp [hiq], by simp [heg], by simp [hri], by simp [hci]⟩⟩

/-- Witness for C3: the hypothesis is satisfiable — `sampleRaw` passes the
validator, and the theorem instantiates at it. -/
theorem assessmentSchema_requires_fields_witness :
    (parseAssessment sampleRaw).isSome = true ∧
    ((∃ rl, sampleRaw.riskLevel = some rl ∧
        (rl = "Low Risk" ∨ rl = "Medium Risk" ∨ rl = "High Risk")) ∧
     (∃ ex, sampleRaw.explanation = some ex ∧ 50 ≤ ex.length) ∧
     (∃ c, sampleRaw.confidence = some c ∧ 0 ≤ c ∧ c ≤ 1) ∧
     (∃ da, sampleRaw.detailedAnalysis = some da ∧
        da.eyeAlignment.isSome = true ∧ da.pupilResponse.isSome = true ∧
        da.cornealClarity.isSome = true ∧ da.squintingStrain.isSome = true ∧
        da.overallEyeHealth.isSome = true) ∧
     (∃ tm, sampleRaw.technicalMetrics = some tm ∧
        tm.imageQuality.isSome = true ∧ tm.eyeGeometry.isSome = true ∧
        tm.riskIndicators.isSome = true ∧ tm.confidenceIntervals.isSome = true)) :=
  ⟨by decide, assessmentSchema_requires_fields sampleRaw (by decide)⟩

/-! ### More JS string primitives (trim, toLowerCase, split on ",") -/

/-- JS `s.trim()`: strip leading and trailing whitespace. -/
def jsTrim (s : String) : String :=
  ⟨((s.toList.dropWhile Char.isWhitespace).reverse.dropWhile Char.isWhitespace).reverse⟩

/-- JS `s.toLowerCase()` (ASCII case mapping). -/
def jsToLower (s : String) : String :=
  ⟨s.toList.map Char.toLower⟩

/-- JS `s.split(",")` on character lists: `"" ↦ [""]`, separators delimit
possibly empty fields. -/
def splitCommaChars : List Char → List (List Char)
  | [] => [[]]
  | c :: rest =>
    let r := splitCommaChars rest
    if c = ',' then [] :: r
    else
      match r with
      | [] => [[c]]
      | h :: t => (c :: h) :: t

/-- JS `s.split(",").map((o) => o.trim())`. -/
def jsSplitCommaTrim (s : String) : List String :=
  (splitCommaChars s.toList).map fun cs => jsTrim ⟨cs⟩

example : jsSplitCommaTrim "https://a.com, https://b.com" =
    ["https://a.com", "https://b.com"] := by decide

example : jsSplitCommaTrim "*" = ["*"] := by decide

example : jsSplitCommaTrim "" = [""] := by decide

/-! ### `getCorsHeaders` (src/app/api/assess-eyes-batch/route.ts) -/

/-- The `Access-Control-Allow-Origin` value `getCorsHeaders` computes.
`originHeader` is `request.headers.get("origin")` (absent ↦ `""` through
`|| ""`), `allowedOriginEnv` is `process.env.ALLOWED_ORIGIN` (absent ↦
`"*"` through `|| "*"`); a found empty-string entry is falsy in JS, so
`allowedOrigin || allowedOrigins[0]` falls back to the first entry. -/
def corsAllowOrigin (originHeader : Option String) (allowedOriginEnv : Option String) : String :=
  let origin := originHeader.getD ""
  let allowedOrigins := jsSplitCommaTrim (allowedOriginEnv.getD "*")
  if allowedOrigins.contains "*" then "*"
  else
    match allowedOrigins.find? (fun allowed => allowed == origin) with
    | some found => if found = "" then allowedOrigins.headD "" else found
    | none => allowedOrigins.headD ""

example : corsAllowOrigin (some "https://evil.com") none = "*" := by decide

example : corsAllowOrigin (some "https://a.com") (some "https://a.com,https://b.com") =
    "https://a.com" := by decide

example : corsAllowOrigin (some "https://evil.com") (some "https://a.com,https://b.com") =
    "https://a.com" := by decide

/-! ### The batch endpoint POST handler (src/app/api/assess-eyes-batch/route.ts) -/

/-- The `is413Error` substring test on the message of an error thrown by the
Gemini SDK call. -/
def is413Error (msg : String) : Bool :=
  strIncludes msg "Request En" || strIncludes msg "413" || strIncludes msg "too large" ||
  strIncludes msg "entity too large" || strIncludes msg "payload" ||
  strIncludes (jsToLower msg) "request size"

/-- The outer catch-block classifier: maps the message of a thrown `Error`
to the user-facing `error` string and the HTTP status, by the source's
if/else-if substring cascade. -/
def classifyOuterError (msg : String) : String × Nat :=
  if strIncludes msg "API key" || strIncludes msg "authentication" then
    ("Google API key not configured or invalid", 500)
  else if strIncludes msg "quota" || strIncludes msg "billing" then
    ("API quota exceeded or billing issue", 500)
  else if strIncludes msg "too large" || strIncludes msg "413" then
    ("Request payload too large. Gemini 1.5 Pro supports up to 100MB of images.", 413)
  else if strIncludes msg "JSON" then
    ("Failed to parse AI response. Please try again.", 500)
  else
    ("Error: " ++ msg, 500)

/-- What the handler observes of the Gemini response text: the
`JSON.parse` / regex-extraction step either finds no JSON object
(the handler then throws `"No valid JSON found in Gemini response"`),
throws a parse error with some message, or produces a raw JSON object. -/
inductive ParsedText
  | noJson
  | badJson (msg : String)
  | ok (raw : RawAssessment)
deriving DecidableEq

/-- The external `model.generateContent` call, as an oracle: it either
rejects with an error message or resolves to a response text. -/
inductive GeminiCall
  | throws (msg : String)
  | responds (text : ParsedText)
deriving DecidableEq

/-- The response body fields this verification tracks, plus the HTTP
status.  `error`, `isMockResult` and `imagesAnalyzed` are `none` when the
corresponding JSON field is absent from the response body; `assessment` is
the validated payload spread into a 200 body. -/
structure BatchResponse where
  status : Nat
  error : Option String
  isMockResult : Option Bool
  assessment : Option Assessment
  imagesAnalyzed : Option Nat
deriving DecidableEq

/-- The outer catch block: classify the thrown error's message and answer
with `{ error, isMockResult: true }` and the classified status. -/
def outerCatch (msg : String) : BatchResponse :=
  let em := classifyOuterError msg
  ⟨em.2, some em.1, some true, none, none⟩

/-- The 200 success response: the validated assessment spread into the
body with `confidence` rounded to two decimals, `isMockResult: false` and
`imagesAnalyzed`. -/
def successResponse (a : Assessment) (count : Nat) : BatchResponse :=
  ⟨200, none, some false,
    some ⟨a.riskLevel, a.explanation, round2 a.confidence, a.detectedFeatures,
      a.recommendations, a.visualAidSuggestions, a.detailedAnalysis,
      a.technicalMetrics, a.progressionAnalysis⟩,
    some count⟩

/-- The batch endpoint `POST` handler.  `contentLength` is the parsed
`Content-Length` header (`none` when the header is absent), `images` is
`body.images` (`none` when missing or not an array), `apiKey` is
`process.env.GOOGLE_GENERATIVE_AI_API_KEY`, `call` is the external Gemini
call, and `zodMsg` is the message of the `ZodError` that
`AssessmentSchema.parse` would throw if validation fails (opaque to the
handler, which only substring-classifies it in the outer catch). -/
def batchPost (contentLength : Option Nat) (images : Option (List String))
    (apiKey : Option String) (call : GeminiCall) (zodMsg : String) : BatchResponse :=
  if contentLength.getD 0 > 100 * 1024 * 1024 then
    ⟨413, some "Request payload too large. Gemini 1.5 Pro supports up to 100MB of images.",
      none, none, none⟩
  else
    match images with
    | none => ⟨400, some "No images array provided", none, none, none⟩
    | some imgs =>
      if imgs.length = 0 ∨ imgs.length > 6 then
        ⟨400, some "Please provide between 1 and 6 images", none, none, none⟩
      else
        match apiKey with
        | none => ⟨500, some "Google API key not configured", some true, none, none⟩
        | some _ =>
          match call with
          | .throws msg =>
            if is413Error msg then
              ⟨413, some "Images too large for batch processing", some true, none, none⟩
            else
              ⟨500, some "Gemini API error occurred", some true, none, none⟩
          | .responds t =>
            match t with
            | .noJson => outerCatch "No valid JSON found in Gemini response"
            | .badJson m => outerCatch m
            | .ok raw =>
              match parseAssessment raw with
              | none => outerCatch zodMsg
              | some a => successResponse a imgs.length

/-! ### The single-image endpoint prechecks (src/app/api/assess-eyes/route.ts) -/

/-- The response body fields the single endpoint's early returns carry. -/
structure SingleResponse where
  status : Nat
  error : Option String
  isMockResult : Option Bool
deriving DecidableEq

/-- The prechecks of the single-image endpoint `POST` handler: `some r` is
an early-return response, `none` means the handler continues into the
OpenAI call.  `image` is `formData.get("image")`, `apiKey` is
`process.env.OPENAI_API_KEY`. -/
def singlePostPrecheck (image : Option ImageFile) (apiKey : Option String) :
    Option SingleResponse :=
  match image with
  | none => some ⟨400, some "No image provided", none⟩
  | some _ =>
    match apiKey with
    | none => some ⟨500, some "OpenAI API key not configured", some true⟩
    | some _ => none

example :
    (batchPost none (some ["a"]) none (.throws "boom") "z").status = 500 := by decide

example :
    (batchPost none (some ["a", "b"]) (some "key") (.responds (.ok sampleRaw)) "z").status
      = 200 := by decide

/-! ### `performMockAssessment` and `MOCK_RESULTS`
(src/lib/assessment-service.tsx) -/

/-- The client-side `AssessmentResult` record (optional fields are
`Option`). -/
structure AssessmentResult where
  riskLevel : String
  explanation : String
  callToAction : Option String
  confidence : Option ℚ
  detectedFeatures : Option (List String)
  isMockResult : Option Bool
  errorMessage : Option String
deriving DecidableEq

/-- The client-side `AssessmentRequest` record. -/
structure AssessmentRequest where
  images : List ImageFile
  childAge : Option Nat
  additionalNotes : Option String
deriving DecidableEq

/-- The fixed `MOCK_RESULTS` list, verbatim from the source. -/
def MOCK_RESULTS : List AssessmentResult :=
  [⟨"Low Risk",
    "Eye alignment appears normal with no significant concerns detected. Both eyes show proper coordination and focus.",
    none, some (mkRat 92 100),
    some ["Normal eye alignment", "Symmetric pupil response", "Clear corneal reflex"],
    none, none⟩,
   ⟨"Low Risk",
    "Eyes appear healthy with good alignment. Minor asymmetry detected but within normal range for child development.",
    none, some (mkRat 88 100),
    some ["Good eye coordination", "Normal pupil size", "Healthy eye appearance"],
    none, none⟩,
   ⟨"Medium Risk",
    "Subtle eye alignment variations detected. One eye may turn slightly inward or outward, which could indicate early strabismus.",
    some "Schedule a comprehensive eye exam to ensure optimal eye health and rule out any developing conditions.",
    some (mkRat 76 100),
    some ["Mild eye misalignment", "Possible strabismus indicators", "Asymmetric light reflex"],
    none, none⟩,
   ⟨"Medium Risk",
    "Possible signs of refractive error detected. Child may be experiencing difficulty focusing, which could affect vision development.",
    some "Consider scheduling an eye exam to assess for nearsightedness, farsightedness, or astigmatism.",
    some (mkRat 71 100),
    some ["Potential refractive error", "Focusing difficulties", "Eye strain indicators"],
    none, none⟩,
   ⟨"High Risk",
    "Significant eye alignment concerns detected requiring immediate attention. Possible strabismus or amblyopia risk identified.",
    some "Please schedule an appointment with an eye care professional as soon as possible for proper evaluation and treatment.",
    some (mkRat 89 100),
    some ["Significant misalignment", "Strabismus indicators", "Amblyopia risk factors"],
    none, none⟩,
   ⟨"High Risk",
    "Concerning asymmetry in pupil response and eye positioning detected. This may indicate neurological or muscular issues affecting eye movement.",
    some "Immediate professional evaluation recommended. Contact an ophthalmologist or pediatric eye specialist.",
    some (mkRat 94 100),
    some ["Pupil asymmetry", "Eye movement concerns", "Neurological indicators"],
    none, none⟩]

/-- JS `v || dflt` applied to an optional number: `undefined` and `0` are
falsy. -/
def jsOrNum (v : Option ℚ) (dflt : ℚ) : ℚ :=
  match v with
  | some c => if c = 0 then dflt else c
  | none => dflt

/-- The weighted `resultPool`: when the request has multiple images and at
least one image over 1MB, Low-Risk entries are doubled; otherwise the plain
`MOCK_RESULTS`. -/
def mockResultPool (request : AssessmentRequest) : List AssessmentResult :=
  if request.images.length > 1 ∧ request.images.any fun img => img.size > 1000000 then
    (MOCK_RESULTS.filter fun r => r.riskLevel == "Low Risk") ++
    (MOCK_RESULTS.filter fun r => r.riskLevel == "Low Risk") ++
    (MOCK_RESULTS.filter fun r => r.riskLevel == "Medium Risk") ++
    (MOCK_RESULTS.filter fun r => r.riskLevel == "High Risk")
  else
    MOCK_RESULTS

/-- `performMockAssessment`.  The two `Math.random()` draws are explicit
parameters: `rSel` picks the pool index (`Math.floor(rSel * pool.length)`),
`rConf` perturbs the confidence (`(rConf - 0.5) * 0.1`).  `.error` models
the thrown `"No images provided for assessment"`. -/
def performMockAssessment (request : AssessmentRequest) (rSel rConf : ℚ) :
    Except String AssessmentResult :=
  if request.images.length = 0 then
    .error "No images provided for assessment"
  else
    let resultPool := mockResultPool request
    let randomIndex := (qFloor (qMul rSel (resultPool.length : ℚ))).toNat
    let selectedResult := resultPool.getD randomIndex ⟨"", "", none, none, none, none, none⟩
    let confidenceVariation := qMul (qSub rConf (mkRat 1 2)) (mkRat 1 10)
    let adjustedConfidence :=
      max (mkRat 6 10)
        (min (mkRat 99 100) (qAdd (jsOrNum selectedResult.confidence (mkRat 8 10)) confidenceVariation))
    .ok ⟨selectedResult.riskLevel, selectedResult.explanation, selectedResult.callToAction,
      some (round2 adjustedConfidence), selectedResult.detectedFeatures,
      some true, selectedResult.errorMessage⟩

example :
    (performMockAssessment ⟨[⟨"image/jpeg", 5000⟩], none, none⟩ 0 (mkRat 1 2)).toOption.map
      (fun r => r.riskLevel) = some "Low Risk" := by decide

example :
    (performMockAssessment ⟨[⟨"image/jpeg", 5000⟩], none, none⟩ (mkRat 5 6) (mkRat 1 2)).toOption.map
      (fun r => r.riskLevel) = some "High Risk" := by decide

/-! ### Claim theorems -/

/-- C1 (counterexample): the Content-Length guard runs before the count
check, so a request with 7 images *and* a Content-Length over 100MB
returns 413, not 400 — refuting the unrestricted claim. -/
theorem batch_count_400_counterexample :
    (batchPost (some 104857601) (some ["a", "b", "c", "d", "e", "f", "g"]) (some "key")
        (.throws "e") "z").status = 413 ∧
    ¬ (batchPost (some 104857601) (some ["a", "b", "c", "d", "e", "f", "g"]) (some "key")
        (.throws "e") "z").status = 400 := by
  decide

/-- C1 (amended): for every POST whose Content-Length header does not
exceed 100MB and whose body has an images array of length 0 or more than
6, the handler returns 400 with the count error message, without calling
the external model (the response is independent of the oracle). -/
theorem batch_count_400 (contentLength : Option Nat) (imgs : List String)
    (apiKey : Option String) (call : GeminiCall) (zodMsg : String)
    (hcl : contentLength.getD 0 ≤ 100 * 1024 * 1024)
    (hcount : imgs.length = 0 ∨ imgs.length > 6) :
    (batchPost contentLength (some imgs) apiKey call zodMsg).status = 400 ∧
    (batchPost contentLength (some imgs) apiKey call zodMsg).error =
      some "Please provide between 1 and 6 images" ∧
    ∀ call2 : GeminiCall, batchPost contentLength (some imgs) apiKey call2 zodMsg =
      batchPost contentLength (some imgs) apiKey call zodMsg := by
  have hni : ¬ contentLength.getD 0 > 100 * 1024 * 1024 := by omega
  have hcond : imgs = [] ∨ 6 < imgs.length := by
    rcases hcount with h | h
    · exact Or.inl (List.length_eq_zero.1 h)
    · exact Or.inr h
  simp [batchPost, hni, hcond]

/-- Witness for C1's amended theorem: 7 small images and no oversized
Content-Length give 400. -/
theorem batch_count_400_witness :
    ((7 : Nat) = 0 ∨ (7 : Nat) > 6) ∧
    (batchPost none (some ["a", "b", "c", "d", "e", "f", "g"]) (some "k")
        (.throws "e") "z").status = 400 :=
  ⟨by decide,
   (batch_count_400 none ["a", "b", "c", "d", "e", "f", "g"] (some "k")
      (.throws "e") "z" (by decide) (by decide)).1⟩

/-- C2: a request whose Content-Length header reports a payload over 100MB
(104857600 bytes) gets 413 with the payload error message before anything
else: the response does not depend on the images, the API key, or the
external call. -/
theorem batch_payload_413 (n : Nat) (images : Option (List String))
    (apiKey : Option String) (call : GeminiCall) (zodMsg : String)
    (h : n > 100 * 1024 * 1024) :
    (batchPost (some n) images apiKey call zodMsg).status = 413 ∧
    (batchPost (some n) images apiKey call zodMsg).error =
      some "Request payload too large. Gemini 1.5 Pro supports up to 100MB of images." ∧
    ∀ (images2 : Option (List String)) (apiKey2 : Option String) (call2 : GeminiCall)
      (zodMsg2 : String),
      batchPost (some n) images2 apiKey2 call2 zodMsg2 =
        batchPost (some n) images apiKey call zodMsg := by
  simp [batchPost, h]

/-- Witness for C2 at 104857601 bytes. -/
theorem batch_payload_413_witness :
    (104857601 : Nat) > 100 * 1024 * 1024 ∧
    (batchPost (some 104857601) (some ["a"]) (some "k") (.throws "e") "z").status = 413 :=
  ⟨by decide,
   (batch_payload_413 104857601 (some ["a"]) (some "k") (.throws "e") "z" (by decide)).1⟩

/-- C4: on an otherwise-valid request, a missing provider API key gives a
500 whose body has `isMockResult: true` and an error message naming the
missing key — on the batch endpoint (`GOOGLE_GENERATIVE_AI_API_KEY`) and
on the single-image endpoint (`OPENAI_API_KEY`). -/
theorem missing_api_key_500 (contentLength : Option Nat) (imgs : List String)
    (call : GeminiCall) (zodMsg : String) (img : ImageFile)
    (hcl : contentLength.getD 0 ≤ 100 * 1024 * 1024)
    (hlen : 1 ≤ imgs.length) (hlen6 : imgs.length ≤ 6) :
    (batchPost contentLength (some imgs) none call zodMsg =
      ⟨500, some "Google API key not configured", some true, none, none⟩) ∧
    strIncludes "Google API key not configured" "API key" = true ∧
    (singlePostPrecheck (some img) none =
      some ⟨500, some "OpenAI API key not configured", some true⟩) ∧
    strIncludes "OpenAI API key not configured" "API key" = true := by
  have hni : ¬ contentLength.getD 0 > 100 * 1024 * 1024 := by omega
  refine ⟨?_, by decide, rfl, by decide⟩
  simp [batchPost, hni]
  exact ⟨by rintro rfl; simp at hlen, by omega⟩

/-- Witness for C4 with one image and no keys. -/
theorem missing_api_key_500_witness :
    (batchPost none (some ["a"]) none (.throws "e") "z" =
      ⟨500, some "Google API key not configured", some true, none, none⟩) ∧
    (singlePostPrecheck (some ⟨"image/jpeg", 5000⟩) none =
      some ⟨500, some "OpenAI API key not configured", some true⟩) :=
  ⟨(missing_api_key_500 none ["a"] (.throws "e") "z" ⟨"image/jpeg", 5000⟩
      (by decide) (by decide) (by decide)).1,
   (missing_api_key_500 none ["a"] (.throws "e") "z" ⟨"image/jpeg", 5000⟩
      (by decide) (by decide) (by decide)).2.2.1⟩

/-- C10: for a request whose images field is missing, not an array, empty,
or longer than 6, the batch response is identical whether or not the
Google API key (or anything downstream of it) is set: the shape and count
checks run before the key check. -/
theorem shape_validation_key_independent (contentLength : Option Nat)
    (images : Option (List String)) (k1 k2 : Option String)
    (call1 call2 : GeminiCall) (z1 z2 : String)
    (hbad : images = none ∨ ∃ l, images = some l ∧ (l.length = 0 ∨ l.length > 6)) :
    batchPost contentLength images k1 call1 z1 =
      batchPost contentLength images k2 call2 z2 := by
  rcases hbad with h | ⟨l, rfl, hlen⟩
  · subst h
    by_cases hcl : contentLength.getD 0 > 100 * 1024 * 1024 <;> simp [batchPost, hcl]
  · have hcond : l = [] ∨ 6 < l.length := by
      rcases hlen with h | h
      · exact Or.inl (List.length_eq_zero.1 h)
      · exact Or.inr h
    by_cases hcl : contentLength.getD 0 > 100 * 1024 * 1024 <;> simp [batchPost, hcl, hcond]

/-- Witness for C10: an empty images array with and without a key. -/
theorem shape_validation_key_independent_witness :
    batchPost none (some []) none (.throws "a") "z" =
      batchPost none (some []) (some "key") (.responds .noJson) "y" :=
  shape_validation_key_independent none (some []) none (some "key")
    (.throws "a") (.responds .noJson) "z" "y" (Or.inr ⟨[], rfl, Or.inl rfl⟩)

/-- C5 (counterexample): an error thrown by the Gemini SDK call whose
message contains "API key" is handled by the inner catch, which returns
the generic "Gemini API error occurred" 500 body — not the
key-configuration message the claim requires for every failure. -/
theorem batch_error_classification_counterexample :
    strIncludes "API key not valid" "API key" = true ∧
    (batchPost none (some ["img"]) (some "key") (.throws "API key not valid") "z").error =
      some "Gemini API error occurred" ∧
    ¬ (batchPost none (some ["img"]) (some "key") (.throws "API key not valid") "z").error =
      some "Google API key not configured or invalid" := by
  decide

/-- C5 (amended): errors from the Gemini SDK call itself are classified by
the inner catch — 413-indicating messages ("Request En", "413",
"too large", "entity too large", "payload", case-insensitive
"request size") give a 413 payload response, all others the generic 500
"Gemini API error occurred"; errors thrown during the rest of processing
reach the outer catch, whose substring cascade maps "API key" /
"authentication" to the key-configuration message (500), else "quota" /
"billing" to the quota message (500), else "too large" / "413" to the
payload message (413), else "JSON" to the parse-failure message (500),
and any other message to an `Error:`-prefixed message with 500. -/
theorem batch_error_classification (contentLength : Option Nat) (imgs : List String)
    (key zodMsg msg m : String)
    (hcl : contentLength.getD 0 ≤ 100 * 1024 * 1024)
    (hlen : 1 ≤ imgs.length) (hlen6 : imgs.length ≤ 6) :
    (batchPost contentLength (some imgs) (some key) (.throws msg) zodMsg =
      if is413Error msg then
        ⟨413, some "Images too large for batch processing", some true, none, none⟩
      else
        ⟨500, some "Gemini API error occurred", some true, none, none⟩) ∧
    (batchPost contentLength (some imgs) (some key) (.responds (.badJson m)) zodMsg =
      outerCatch m) ∧
    ((strIncludes m "API key" || strIncludes m "authentication") = true →
      classifyOuterError m = ("Google API key not configured or invalid", 500)) ∧
    ((strIncludes m "API key" || strIncludes m "authentication") = false →
      (strIncludes m "quota" || strIncludes m "billing") = true →
      classifyOuterError m = ("API quota exceeded or billing issue", 500)) ∧
    ((strIncludes m "API key" || strIncludes m "authentication") = false →
      (strIncludes m "quota" || strIncludes m "billing") = false →
      (strIncludes m "too large" || strIncludes m "413") = true →
      classifyOuterError m =
        ("Request payload too large. Gemini 1.5 Pro supports up to 100MB of images.", 413)) ∧
    ((strIncludes m "API key" || strIncludes m "authentication") = false →
      (strIncludes m "quota" || strIncludes m "billing") = false →
      (strIncludes m "too large" || strIncludes m "413") = false →
      strIncludes m "JSON" = true →
      classifyOuterError m = ("Failed to parse AI response. Please try again.", 500)) ∧
    ((strIncludes m "API key" || strIncludes m "authentication") = false →
      (strIncludes m "quota" || strIncludes m "billing") = false →
      (strIncludes m "too large" || strIncludes m "413") = false →
      strIncludes m "JSON" = false →
      classifyOuterError m = ("Error: " ++ m, 500)) := by
  have hni : ¬ contentLength.getD 0 > 100 * 1024 * 1024 := by omega
  have hcond : ¬ (imgs = [] ∨ 6 < imgs.length) := by
    rintro (rfl | h)
    · simp at hlen
    · omega
  refine ⟨?_, ?_, ?_, ?_, ?_, ?_, ?_⟩
  · simp [batchPost, hni, hcond]
  · simp [batchPost, hni, hcond]
  all_goals
    intros
    simp_all [classifyOuterError]

/-- Witness for C5's amended theorem: a quota message classifies as the
quota/billing 500, and an SDK "payload"-mentioning rejection gives 413. -/
theorem batch_error_classification_witness :
    classifyOuterError "API quota exceeded for project" =
      ("API quota exceeded or billing issue", 500) ∧
    batchPost none (some ["a"]) (some "k") (.throws "payload over limit") "z" =
      ⟨413, some "Images too large for batch processing", some true, none, none⟩ := by
  constructor
  · exact (batch_error_classification none ["a"] "k" "z" "e" "API quota exceeded for project"
      (by decide) (by decide) (by decide)).2.2.2.1 (by decide) (by decide)
  · have h := (batch_error_classification none ["a"] "k" "z" "payload over limit" "m"
      (by decide) (by decide) (by decide)).1
    rw [h]
    decide

/-- C6 (spec reading): the allow-origin value as the claim describes it —
wildcard, else the request's origin whenever it is in the list, else the
first list entry. -/
def corsAllowOriginSpec (originHeader : Option String) (allowedOriginEnv : Option String) :
    String :=
  let origin := originHeader.getD ""
  let allowedOrigins := jsSplitCommaTrim (allowedOriginEnv.getD "*")
  if allowedOrigins.contains "*" then "*"
  else if allowedOrigins.contains origin then origin
  else allowedOrigins.headD ""

/-- C6 (counterexample): with `ALLOWED_ORIGIN = "https://a.com,"` (so the
allow-list contains the empty string) and an empty Origin header, the
origin `""` is in the list, but the JS `||` fallback treats the found empty
string as falsy and answers the first entry instead of the origin. -/
theorem cors_allow_origin_counterexample :
    corsAllowOrigin (some "") (some "https://a.com,") = "https://a.com" ∧
    corsAllowOriginSpec (some "") (some "https://a.com,") = "" ∧
    ¬ corsAllowOrigin (some "") (some "https://a.com,") =
        corsAllowOriginSpec (some "") (some "https://a.com,") := by
  decide

/-- C6 (amended): the allow-list is `ALLOWED_ORIGIN` (default `"*"`) split
on "," and trimmed; if it contains `"*"` the allow-origin is `"*"`;
otherwise it is the request's Origin header whenever that origin is a
*nonempty* member of the list; and the first list entry when the origin is
not in the list or is the empty string. -/
theorem cors_allow_origin_correct (originHeader env : Option String) :
    ((jsSplitCommaTrim (env.getD "*")).contains "*" = true →
      corsAllowOrigin originHeader env = "*") ∧
    ((jsSplitCommaTrim (env.getD "*")).contains "*" = false →
      originHeader.getD "" ≠ "" →
      (jsSplitCommaTrim (env.getD "*")).contains (originHeader.getD "") = true →
      corsAllowOrigin originHeader env = originHeader.getD "") ∧
    ((jsSplitCommaTrim (env.getD "*")).contains "*" = false →
      (jsSplitCommaTrim (env.getD "*")).contains (originHeader.getD "") = false →
      corsAllowOrigin originHeader env = (jsSplitCommaTrim (env.getD "*")).headD "") ∧
    ((jsSplitCommaTrim (env.getD "*")).contains "*" = false →
      originHeader.getD "" = "" →
      corsAllowOrigin originHeader env = (jsSplitCommaTrim (env.getD "*")).headD "") := by
  refine ⟨fun hw => ?_, fun hw hne hmem => ?_, fun hw hmem => ?_, fun hw hor => ?_⟩
  · simp only [corsAllowOrigin]
    rw [if_pos hw]
  · have hfind : (jsSplitCommaTrim (env.getD "*")).find?
        (fun allowed => allowed == originHeader.getD "") = some (originHeader.getD "") := by
      have hsome : ((jsSplitCommaTrim (env.getD "*")).find?
          (fun allowed => allowed == originHeader.getD "")).isSome = true :=
        List.find?_isSome.mpr
          ⟨originHeader.getD "", List.mem_of_elem_eq_true hmem, by simp⟩
      obtain ⟨x, hx⟩ := Option.isSome_iff_exists.1 hsome
      have hpx := List.find?_some hx
      simp only [beq_iff_eq] at hpx
      rwa [hpx] at hx
    simp only [corsAllowOrigin, hw, hfind]
    simp [hne]
  · have hfind : (jsSplitCommaTrim (env.getD "*")).find?
        (fun allowed => allowed == originHeader.getD "") = none := by
      rw [List.find?_eq_none]
      intro x hx
      simp only [beq_iff_eq]
      rintro rfl
      have h2 : (jsSplitCommaTrim (env.getD "*")).contains (originHeader.getD "") = true :=
        List.elem_eq_true_of_mem hx
      simp [h2] at hmem
      exact hmem hx
    simp only [corsAllowOrigin, hw, hfind]
    simp
  · rcases hfind : (jsSplitCommaTrim (env.getD "*")).find?
        (fun allowed => allowed == originHeader.getD "") with _ | found
    · simp only [corsAllowOrigin, hw, hfind]
      simp
    · have hfound := List.find?_some hfind
      simp only [beq_iff_eq, hor] at hfound
      simp only [corsAllowOrigin, hw, hfind]
      simp [hfound]

/-- Witness for C6's amended theorem: a listed nonempty origin is echoed
back. -/
theorem cors_allow_origin_correct_witness :
    corsAllowOrigin (some "https://b.com") (some "https://a.com,https://b.com") =
      "https://b.com" :=
  (cors_allow_origin_correct (some "https://b.com")
      (some "https://a.com,https://b.com")).2.1 (by decide) (by decide) (by decide)

lemma outerCatch_status_ne_200 (m : String) : (outerCatch m).status ≠ 200 := by
  unfold outerCatch classifyOuterError
  split_ifs <;> simp

/-- C8 (counterexample): `progressionAnalysis` is `.optional()` in the
schema, so a valid model response without it still yields a 200 whose body
has no progression-analysis block. -/
theorem batch_200_missing_progression_counterexample :
    (batchPost none (some ["a"]) (some "k")
        (.responds (.ok sampleRawNoProgression)) "z").status = 200 ∧
    ((batchPost none (some ["a"]) (some "k")
        (.responds (.ok sampleRawNoProgression)) "z").assessment.map
      fun v => v.progressionAnalysis) = some none := by
  decide

/-- The parse of `sampleRaw`, written out. -/
def sampleParsed : Assessment :=
  ⟨"Low Risk",
   "Eye alignment appears normal with no significant concerns detected overall.",
   1, ["Normal eye alignment"], ["Routine checkups"], ["Good lighting"],
   ⟨"normal", "normal", "clear", "none", "healthy"⟩,
   ⟨⟨"1280x720", 80, 5, 120⟩, ⟨4, 4, 1, 0, 55⟩, ⟨10, 5, 90, 85⟩,
    ⟨⟨70, 90⟩, ⟨10, 30⟩⟩⟩,
   some ⟨"stable", "consistent", ["none observed"]⟩⟩

example : parseAssessment sampleRaw = some sampleParsed := by decide

/-- C8 (amended): every 200 response of the batch endpoint carries the
full validated assessment shape; the progression-analysis block is
optional — the success response copies the validated
`progressionAnalysis`, so the block (with its `overallTrend`,
`imageComparison` and `temporalChanges` fields) is present exactly when
the model's validated response included one. -/
theorem batch_200_success_shape (cl : Option Nat) (images : Option (List String))
    (apiKey : Option String) (call : GeminiCall) (z : String)
    (imgs : List String) (key : String) (raw : RawAssessment) (a : Assessment) :
    ((batchPost cl images apiKey call z).status = 200 →
      (batchPost cl images apiKey call z).assessment.isSome = true ∧
      (batchPost cl images apiKey call z).isMockResult = some false) ∧
    (cl.getD 0 ≤ 100 * 1024 * 1024 → 1 ≤ imgs.length → imgs.length ≤ 6 →
      parseAssessment raw = some a →
      batchPost cl (some imgs) (some key) (.responds (.ok raw)) z =
        successResponse a imgs.length ∧
      (successResponse a imgs.length).status = 200 ∧
      ((successResponse a imgs.length).assessment.map
        fun v => v.progressionAnalysis) = some a.progressionAnalysis) := by
  constructor
  · intro h
    unfold batchPost at h ⊢
    by_cases h1 : cl.getD 0 > 100 * 1024 * 1024
    · simp [h1] at h
    · simp only [if_neg h1] at h ⊢
      cases images with
      | none => simp at h
      | some imgs2 =>
        by_cases h2 : imgs2.length = 0 ∨ imgs2.length > 6
        · rcases h2 with h2 | h2
          · have h0 : imgs2 = [] := List.length_eq_zero.1 h2
            simp [h0] at h
          · simp [h2] at h
        · have hne : ¬ (imgs2 = [] ∨ 6 < imgs2.length) := by
            rintro (rfl | hh)
            · exact h2 (Or.inl rfl)
            · exact h2 (Or.inr hh)
          cases apiKey with
          | none => simp [hne] at h
          | some k =>
            cases call with
            | throws msg => by_cases h3 : is413Error msg <;> simp [hne, h3] at h
            | responds t =>
              cases t with
              | noJson =>
                simp [hne] at h
                exact absurd h (outerCatch_status_ne_200 _)
              | badJson m =>
                simp [hne] at h
                exact absurd h (outerCatch_status_ne_200 _)
              | ok raw2 =>
                rcases hp : parseAssessment raw2 with _ | a2
                · simp [hne, hp] at h
                  exact absurd h (outerCatch_status_ne_200 _)
                · simp [hne, hp, successResponse]
  · intro hcl hlen hlen6 hparse
    have hni : ¬ cl.getD 0 > 100 * 1024 * 1024 := by omega
    have hcond : ¬ (imgs = [] ∨ 6 < imgs.length) := by
      rintro (rfl | h)
      · simp at hlen
      · omega
    refine ⟨?_, rfl, by simp [successResponse]⟩
    simp [batchPost, hni, hcond, hparse]

/-- Witness for C8's amended theorem at `sampleRaw`. -/
theorem batch_200_success_shape_witness :
    batchPost none (some ["a"]) (some "k") (.responds (.ok sampleRaw)) "z" =
      successResponse sampleParsed 1 ∧
    (successResponse sampleParsed 1).status = 200 :=
  have h := (batch_200_success_shape none (some ["a"]) (some "k")
      (.responds (.ok sampleRaw)) "z" ["a"] "k" sampleRaw sampleParsed).2
      (by decide) (by decide) (by decide) (by decide)
  ⟨h.1, h.2.1⟩

/-- C7 (counterexample): `performMockAssessment` selects by `Math.random()`
— two runs on the same one-image request, with selection draws `0` and
`5/6`, return a Low-Risk and a High-Risk result respectively. -/
theorem performMockAssessment_not_deterministic :
    ((performMockAssessment ⟨[⟨"image/jpeg", 5000⟩], none, none⟩ 0 (mkRat 1 2)).toOption.map
      fun r => r.riskLevel) = some "Low Risk" ∧
    ((performMockAssessment ⟨[⟨"image/jpeg", 5000⟩], none, none⟩ (mkRat 5 6)
        (mkRat 1 2)).toOption.map fun r => r.riskLevel) = some "High Risk" ∧
    ¬ ((performMockAssessment ⟨[⟨"image/jpeg", 5000⟩], none, none⟩ 0 (mkRat 1 2)).toOption.map
        fun r => r.riskLevel) =
      ((performMockAssessment ⟨[⟨"image/jpeg", 5000⟩], none, none⟩ (mkRat 5 6)
          (mkRat 1 2)).toOption.map fun r => r.riskLevel) := by
  decide

lemma mem_mockResultPool (request : AssessmentRequest) (x : AssessmentResult)
    (hx : x ∈ mockResultPool request) : x ∈ MOCK_RESULTS := by
  unfold mockResultPool at hx
  split at hx
  · simp only [List.mem_append, List.mem_filter] at hx
    tauto
  · exact hx

lemma mockResultPool_length_pos (request : AssessmentRequest) :
    0 < (mockResultPool request).length := by
  unfold mockResultPool
  split <;> decide

lemma qFloor_toNat_lt (x : ℚ) (n : Nat) (h0 : 0 ≤ x) (h : x < (n : ℚ)) :
    (qFloor x).toNat < n := by
  obtain ⟨m, hm⟩ : ∃ m : Nat, x.num = (m : Int) :=
    ⟨x.num.toNat, (Int.toNat_of_nonneg (Rat.num_nonneg.2 h0)).symm⟩
  have hnum : x.num < (n : Int) * (x.den : Int) := by
    have h2 := Rat.lt_def.mp h
    simpa using h2
  rw [qFloor, hm]
  rw [← Int.ofNat_fdiv m x.den, Int.toNat_natCast]
  have hden : 0 < x.den := x.pos
  rw [Nat.div_lt_iff_lt_mul hden]
  have hmn : (m : Int) < (n : Int) * (x.den : Int) := hm ▸ hnum
  exact_mod_cast hmn

/-- C7 (amended): `performMockAssessment` always answers with an entry of
the fixed `MOCK_RESULTS` list — the returned `riskLevel`, `explanation`,
`callToAction` and `detectedFeatures` are those of some mock entry, with
`isMockResult: true` and only the confidence perturbed — but the selection
is random (see the counterexample: two runs on the same request can
differ). -/
theorem performMockAssessment_draws_from_mock_list (request : AssessmentRequest)
    (rSel rConf : ℚ) (h0 : 0 ≤ rSel) (h1 : rSel < 1)
    (himg : request.images.length ≠ 0) :
    ∃ m ∈ MOCK_RESULTS,
      ((performMockAssessment request rSel rConf).toOption.map
        fun r => r.riskLevel) = some m.riskLevel ∧
      ((performMockAssessment request rSel rConf).toOption.map
        fun r => r.explanation) = some m.explanation ∧
      ((performMockAssessment request rSel rConf).toOption.map
        fun r => r.callToAction) = some m.callToAction ∧
      ((performMockAssessment request rSel rConf).toOption.map
        fun r => r.detectedFeatures) = some m.detectedFeatures ∧
      ((performMockAssessment request rSel rConf).toOption.map
        fun r => r.isMockResult) = some (some true) := by
  have hidx : (qFloor (qMul rSel ((mockResultPool request).length : ℚ))).toNat <
      (mockResultPool request).length := by
    apply qFloor_toNat_lt
    · rw [qMul_eq]
      exact mul_nonneg h0 (Nat.cast_nonneg _)
    · rw [qMul_eq]
      calc rSel * ((mockResultPool request).length : ℚ)
          < 1 * ((mockResultPool request).length : ℚ) := by
            apply mul_lt_mul_of_pos_right h1
            exact_mod_cast mockResultPool_length_pos request
        _ = ((mockResultPool request).length : ℚ) := one_mul _
  have hmemp : (mockResultPool request).getD
      (qFloor (qMul rSel ((mockResultPool request).length : ℚ))).toNat
      ⟨"", "", none, none, none, none, none⟩ ∈ mockResultPool request := by
    rw [List.getD_eq_getElem _ _ hidx]
    exact List.getElem_mem hidx
  refine ⟨_, mem_mockResultPool request _ hmemp, ?_, ?_, ?_, ?_, ?_⟩ <;>
    (unfold performMockAssessment; rw [if_neg himg]; rfl)

/-- Witness for C7's amended theorem with selection draw 0 on a one-image
request. -/
theorem performMockAssessment_draws_from_mock_list_witness :
    (0 : ℚ) ≤ 0 ∧ (0 : ℚ) < 1 ∧
    ∃ m ∈ MOCK_RESULTS,
      ((performMockAssessment ⟨[⟨"image/jpeg", 5000⟩], none, none⟩ 0 (mkRat 1 2)).toOption.map
        fun r => r.riskLevel) = some m.riskLevel ∧
      ((performMockAssessment ⟨[⟨"image/jpeg", 5000⟩], none, none⟩ 0 (mkRat 1 2)).toOption.map
        fun r => r.explanation) = some m.explanation ∧
      ((performMockAssessment ⟨[⟨"image/jpeg", 5000⟩], none, none⟩ 0 (mkRat 1 2)).toOption.map
        fun r => r.callToAction) = some m.callToAction ∧
      ((performMockAssessment ⟨[⟨"image/jpeg", 5000⟩], none, none⟩ 0 (mkRat 1 2)).toOption.map
        fun r => r.detectedFeatures) = some m.detectedFeatures ∧
      ((performMockAssessment ⟨[⟨"image/jpeg", 5000⟩], none, none⟩ 0 (mkRat 1 2)).toOption.map
        fun r => r.isMockResult) = some (some true) :=
  ⟨le_refl 0, zero_lt_one,
   performMockAssessment_draws_from_mock_list ⟨[⟨"image/jpeg", 5000⟩], none, none⟩
     0 (mkRat 1 2) (le_refl 0) zero_lt_one (by decide)⟩

/-- Witness for C9 at a concrete valid single-image list. -/
theorem validateImages_correct_witness :
    (validateImages [⟨"image/jpeg", 5000⟩]).isValid = true :=
  (validateImages_correct [⟨"image/jpeg", 5000⟩]).2.1.mpr
    ⟨by decide, by decide, by decide⟩
